import Mathlib

/-!
# MineSentry escrow condition core — shallow embedding

The repository's `src/` holds only a demo binary (`charms_integration/src/main.rs`)
that prints a walkthrough of the intended Charms SDK integration; the escrow
condition core itself (ConditionSet, SignatureLedger, OracleAttestation,
EscrowStateMachine, PayoutTemplate) is described in the specification but its
implementation is not present under `src/`.  The definitions below are therefore
modelled from the specification's words, and the theorems settle the spec's
claims against this model.
-/

/-- Modelled from the spec: the error taxonomy of §7 (the escrow core
implementation is missing from `src/`). -/
inductive EscrowError where
  | InvalidConditionSet
  | NotEligible
  | ConflictingSignature
  | PredicateMismatch
  | AttestationFinalized
  | EscrowFinalized
  | HeightRegression
deriving DecidableEq, Repr

/-- Modelled from the spec: the immutable ConditionSet of §3/§4.1 (the escrow
core implementation is missing from `src/`).  `escrow_open_height` is a
construction-time parameter only, so it is not stored. -/
structure ConditionSet where
  quorum_threshold : Nat
  eligible_signers : Finset String
  oracle_predicate_id : String
  timeout_height : Nat
deriving DecidableEq

/-- Modelled from the spec: ConditionSet construction, failing with
`InvalidConditionSet` when quorum_threshold exceeds the number of eligible
signers, the signer set is empty, or timeout_height ≤ escrow_open_height. -/
def ConditionSet.new (quorum_threshold : Nat) (eligible_signers : Finset String)
    (oracle_predicate_id : String) (timeout_height escrow_open_height : Nat) :
    Except EscrowError ConditionSet :=
  if quorum_threshold > eligible_signers.card ∨ eligible_signers = ∅ ∨
      timeout_height ≤ escrow_open_height then
    Except.error EscrowError.InvalidConditionSet
  else
    Except.ok ⟨quorum_threshold, eligible_signers, oracle_predicate_id, timeout_height⟩

/-- Modelled from the spec: the SignatureLedger of §3/§4.2, a map from
SignerID to an opaque Signature (both rendered as strings), kept as an
association list (the escrow core implementation is missing from `src/`). -/
structure SignatureLedger where
  signatures : List (String × String)
deriving DecidableEq

/-- Modelled from the spec: `count()` = number of recorded signatures
restricted to the eligible signers. -/
def SignatureLedger.count (cs : ConditionSet) (l : SignatureLedger) : Nat :=
  (l.signatures.filter (fun p => p.1 ∈ cs.eligible_signers)).length

/-- Modelled from the spec: `submit(signer, signature)` of §4.2 — fails with
`NotEligible` for a signer outside eligible_signers; is an idempotent no-op on
an identical resubmission; fails with `ConflictingSignature` on a differing
resubmission; otherwise records the signature and returns the updated count. -/
def SignatureLedger.submit (cs : ConditionSet) (l : SignatureLedger)
    (signer signature : String) : Except EscrowError (SignatureLedger × Nat) :=
  if signer ∉ cs.eligible_signers then
    Except.error EscrowError.NotEligible
  else
    match l.signatures.lookup signer with
    | some recorded =>
        if recorded = signature then
          Except.ok (l, l.count cs)
        else
          Except.error EscrowError.ConflictingSignature
    | none =>
        let l' : SignatureLedger := ⟨(signer, signature) :: l.signatures⟩
        Except.ok (l', l'.count cs)

/-- Modelled from the spec: `has_quorum(condition_set)` — count of eligible
recorded signatures ≥ quorum_threshold; pure. -/
def SignatureLedger.has_quorum (cs : ConditionSet) (l : SignatureLedger) : Bool :=
  cs.quorum_threshold ≤ l.count cs

/-- Modelled from the spec: the oracle attestation status enum of §3. -/
inductive AttestStatus where
  | Unverified
  | Verified
  | Rejected
deriving DecidableEq, Repr

/-- Modelled from the spec: the OracleAttestation record of §3/§4.3. -/
structure OracleAttestation where
  status : AttestStatus
deriving DecidableEq

/-- Modelled from the spec: `attest(predicate_id, status)` of §4.3, with the
checks in the contract's order — `PredicateMismatch` first, then terminality
(`AttestationFinalized` unless the resubmission is identical). -/
def OracleAttestation.attest (cs : ConditionSet) (a : OracleAttestation)
    (predicate_id : String) (status : AttestStatus) :
    Except EscrowError OracleAttestation :=
  if predicate_id ≠ cs.oracle_predicate_id then
    Except.error EscrowError.PredicateMismatch
  else if a.status = AttestStatus.Unverified then
    Except.ok ⟨status⟩
  else if a.status = status then
    Except.ok a
  else
    Except.error EscrowError.AttestationFinalized

/-- Modelled from the spec: `is_verified()` — true iff status = Verified. -/
def OracleAttestation.is_verified (a : OracleAttestation) : Bool :=
  a.status = AttestStatus.Verified

/-- Modelled from the spec: the machine state enum of §3; Released and
Refunded are terminal. -/
inductive EscrowState where
  | Pending
  | Released
  | Refunded
deriving DecidableEq, Repr

/-- Modelled from the spec: the decision recorded in a PayoutTemplate. -/
inductive Decision where
  | Released
  | Refunded
deriving DecidableEq, Repr

/-- Modelled from the spec: the immutable PayoutTemplate of §3/§4.5, created
only at the moment of decision. -/
structure PayoutTemplate where
  destination : String
  amount : Nat
  condition_set : ConditionSet
  decision : Decision
deriving DecidableEq

/-- Modelled from the spec: one escrow instance — the EscrowStateMachine of
§3/§4.4 together with the SignatureLedger and OracleAttestation it exclusively
owns, the last seen ledger height, and the payout destination/amount. -/
structure EscrowStateMachine where
  condition_set : ConditionSet
  ledger : SignatureLedger
  oracle : OracleAttestation
  state : EscrowState
  current_height : Nat
  decided_at_height : Option Nat
  destination : String
  amount : Nat
deriving DecidableEq

/-- Modelled from the spec: the evaluation algorithm of §4.4, invoked after
every relevant event while Pending: release (quorum AND verified) first, else
refund once current_height ≥ timeout_height, else remain Pending.  Returns the
updated machine and the emitted PayoutTemplate, if any. -/
def EscrowStateMachine.evaluate (m : EscrowStateMachine) :
    EscrowStateMachine × Option PayoutTemplate :=
  match m.state with
  | EscrowState.Pending =>
      if m.ledger.has_quorum m.condition_set && m.oracle.is_verified then
        ({ m with state := EscrowState.Released,
                  decided_at_height := some m.current_height },
         some ⟨m.destination, m.amount, m.condition_set, Decision.Released⟩)
      else if m.condition_set.timeout_height ≤ m.current_height then
        ({ m with state := EscrowState.Refunded,
                  decided_at_height := some m.current_height },
         some ⟨m.destination, m.amount, m.condition_set, Decision.Refunded⟩)
      else
        (m, none)
  | _ => (m, none)

/-- Modelled from the spec: machine-level signature submission — fails with
`EscrowFinalized` on a terminal machine (§4.4), otherwise applies the ledger
submit and, on success, the post-event evaluation pass.  The first component
is the resulting instance (unchanged on error, per §7's atomicity). -/
def EscrowStateMachine.submit (m : EscrowStateMachine) (signer signature : String) :
    EscrowStateMachine × Except EscrowError (Nat × Option PayoutTemplate) :=
  if m.state ≠ EscrowState.Pending then
    (m, Except.error EscrowError.EscrowFinalized)
  else
    match m.ledger.submit m.condition_set signer signature with
    | Except.error e => (m, Except.error e)
    | Except.ok (l, c) =>
        let step := EscrowStateMachine.evaluate { m with ledger := l }
        (step.1, Except.ok (c, step.2))

/-- Modelled from the spec: machine-level attestation — fails with
`EscrowFinalized` on a terminal machine (§4.4), otherwise applies the oracle
attest and, on success, the post-event evaluation pass. -/
def EscrowStateMachine.attest (m : EscrowStateMachine)
    (predicate_id : String) (status : AttestStatus) :
    EscrowStateMachine × Except EscrowError (Option PayoutTemplate) :=
  if m.state ≠ EscrowState.Pending then
    (m, Except.error EscrowError.EscrowFinalized)
  else
    match m.oracle.attest m.condition_set predicate_id status with
    | Except.error e => (m, Except.error e)
    | Except.ok a =>
        let step := EscrowStateMachine.evaluate { m with oracle := a }
        (step.1, Except.ok step.2)

/-- Modelled from the spec: `advance_height(height)` of §6 — fails with
`EscrowFinalized` on a terminal machine (§4.4), with `HeightRegression` if the
height is below the last seen height, otherwise records the height and runs
the post-event evaluation pass. -/
def EscrowStateMachine.advance_height (m : EscrowStateMachine) (height : Nat) :
    EscrowStateMachine × Except EscrowError (Option PayoutTemplate) :=
  if m.state ≠ EscrowState.Pending then
    (m, Except.error EscrowError.EscrowFinalized)
  else if height < m.current_height then
    (m, Except.error EscrowError.HeightRegression)
  else
    let step := EscrowStateMachine.evaluate { m with current_height := height }
    (step.1, Except.ok step.2)

/-- Modelled from the spec: the single sequential event stream of §5 feeding
one escrow instance. -/
inductive Event where
  | submit (signer signature : String)
  | attest (predicate_id : String) (status : AttestStatus)
  | advance (height : Nat)
deriving DecidableEq

/-- The instance resulting from one event of the stream (on error the
instance is unchanged, which is the first component of each operation). -/
def EscrowStateMachine.applyEvent (m : EscrowStateMachine) (e : Event) :
    EscrowStateMachine :=
  match e with
  | Event.submit s g => (m.submit s g).1
  | Event.attest p st => (m.attest p st).1
  | Event.advance h => (m.advance_height h).1

/-- The instance after a whole event stream. -/
def EscrowStateMachine.run (m : EscrowStateMachine) (evs : List Event) :
    EscrowStateMachine :=
  evs.foldl EscrowStateMachine.applyEvent m

/-! ## Helper lemmas about `evaluate` -/

/-- Evaluation never touches the ConditionSet, the ledger, the oracle or the
recorded height; it only decides. -/
lemma evaluate_frame (m : EscrowStateMachine) :
    (m.evaluate).1.condition_set = m.condition_set ∧
    (m.evaluate).1.ledger = m.ledger ∧
    (m.evaluate).1.oracle = m.oracle ∧
    (m.evaluate).1.current_height = m.current_height := by
  unfold EscrowStateMachine.evaluate
  rcases m with ⟨cs, l, o, st, ch, d, dest, amt⟩
  cases st <;> simp <;> split_ifs <;> simp

/-- If the oracle is not Verified, evaluation cannot move a non-Released
machine to Released. -/
lemma evaluate_no_release (m : EscrowStateMachine)
    (hv : m.oracle.is_verified = false) (hst : m.state ≠ EscrowState.Released) :
    (m.evaluate).1.state ≠ EscrowState.Released := by
  unfold EscrowStateMachine.evaluate
  rcases m with ⟨cs, l, o, st, ch, d, dest, amt⟩
  simp_all
  cases st <;> simp_all <;> split_ifs <;> simp_all

/-- A Pending machine past its timeout whose release condition fails is
refunded by evaluation. -/
lemma evaluate_refund_aux (m : EscrowStateMachine)
    (hp : m.state = EscrowState.Pending)
    (hb : (m.ledger.has_quorum m.condition_set && m.oracle.is_verified) = false)
    (ht : m.condition_set.timeout_height ≤ m.current_height) :
    (m.evaluate).1.state = EscrowState.Refunded ∧
    (m.evaluate).1.decided_at_height = some m.current_height ∧
    (m.evaluate).2 =
      some ⟨m.destination, m.amount, m.condition_set, Decision.Refunded⟩ := by
  unfold EscrowStateMachine.evaluate
  rcases m with ⟨cs, l, o, st, ch, d, dest, amt⟩
  cases hq : SignatureLedger.has_quorum cs l <;>
    cases hv : o.is_verified <;> simp_all

/-! ## Claim theorems -/

/-- C1: a Pending machine with quorum, a Verified oracle, and
current_height = timeout_height evaluates to Released (never Refunded),
recording decided_at_height and emitting a Released PayoutTemplate. -/
theorem release_priority_at_timeout (m : EscrowStateMachine)
    (hp : m.state = EscrowState.Pending)
    (hq : m.ledger.has_quorum m.condition_set = true)
    (hv : m.oracle.is_verified = true)
    (ht : m.current_height = m.condition_set.timeout_height) :
    (m.evaluate).1.state = EscrowState.Released ∧
    (m.evaluate).1.state ≠ EscrowState.Refunded ∧
    (m.evaluate).1.decided_at_height = some m.current_height ∧
    (m.evaluate).2 =
      some ⟨m.destination, m.amount, m.condition_set, Decision.Released⟩ := by
  unfold EscrowStateMachine.evaluate
  rcases m with ⟨cs, l, o, st, ch, d, dest, amt⟩
  simp_all

/-- Concrete instance for the C1 witness: 2-of-3 quorum reached, oracle
Verified, evaluated exactly at the timeout height. -/
def mTie : EscrowStateMachine :=
  ⟨⟨2, {"V1", "V2", "V3"}, "rpt-1", 1000⟩, ⟨[("V2", "sB"), ("V1", "sA")]⟩,
   ⟨AttestStatus.Verified⟩, EscrowState.Pending, 1000, none, "tb1qreward", 100000⟩

/-- C1 witness: the tie-break instance releases. -/
theorem release_priority_at_timeout_witness :
    mTie.state = EscrowState.Pending ∧
    mTie.ledger.has_quorum mTie.condition_set = true ∧
    mTie.oracle.is_verified = true ∧
    mTie.current_height = mTie.condition_set.timeout_height ∧
    (mTie.evaluate).1.state = EscrowState.Released ∧
    (mTie.evaluate).1.state ≠ EscrowState.Refunded :=
  ⟨rfl, by decide, rfl, rfl,
   (release_priority_at_timeout mTie rfl (by decide) rfl rfl).1,
   (release_priority_at_timeout mTie rfl (by decide) rfl rfl).2.1⟩

/-- C3: a Pending machine at or past its timeout whose release condition
(quorum AND Verified) is not jointly met evaluates to Refunded, recording
decided_at_height and emitting a Refunded PayoutTemplate. -/
theorem refund_on_timeout (m : EscrowStateMachine)
    (hp : m.state = EscrowState.Pending)
    (ht : m.condition_set.timeout_height ≤ m.current_height)
    (hnot : ¬(m.ledger.has_quorum m.condition_set = true ∧
              m.oracle.is_verified = true)) :
    (m.evaluate).1.state = EscrowState.Refunded ∧
    (m.evaluate).1.decided_at_height = some m.current_height ∧
    (m.evaluate).2 =
      some ⟨m.destination, m.amount, m.condition_set, Decision.Refunded⟩ := by
  have hb : (m.ledger.has_quorum m.condition_set && m.oracle.is_verified) = false := by
    cases hq : m.ledger.has_quorum m.condition_set <;>
      cases hv : m.oracle.is_verified <;> simp_all
  exact evaluate_refund_aux m hp hb ht

/-- Concrete instance for the C3 witness: no signatures, oracle Unverified,
height at the timeout. -/
def mTimeout : EscrowStateMachine :=
  ⟨⟨2, {"V1", "V2", "V3"}, "rpt-1", 1000⟩, ⟨[]⟩,
   ⟨AttestStatus.Unverified⟩, EscrowState.Pending, 1000, none, "tb1qreward", 100000⟩

/-- C3 witness: the timed-out instance refunds. -/
theorem refund_on_timeout_witness :
    mTimeout.state = EscrowState.Pending ∧
    mTimeout.condition_set.timeout_height ≤ mTimeout.current_height ∧
    (mTimeout.evaluate).1.state = EscrowState.Refunded ∧
    (mTimeout.evaluate).1.decided_at_height = some 1000 :=
  ⟨rfl, by decide,
   (refund_on_timeout mTimeout rfl (by decide) (by decide)).1,
   (refund_on_timeout mTimeout rfl (by decide) (by decide)).2.1⟩

/-- C6: ConditionSet construction fails with InvalidConditionSet exactly when
quorum_threshold > |eligible_signers|, the signer set is empty, or
timeout_height ≤ escrow_open_height; a successful construction returns
precisely the given data (there is no mutating operation on a ConditionSet). -/
theorem conditionSet_new_invalid_iff (q : Nat) (signers : Finset String)
    (pid : String) (t o : Nat) :
    (ConditionSet.new q signers pid t o =
        Except.error EscrowError.InvalidConditionSet ↔
      q > signers.card ∨ signers = ∅ ∨ t ≤ o) ∧
    (∀ cs, ConditionSet.new q signers pid t o = Except.ok cs →
      cs = ⟨q, signers, pid, t⟩) := by
  constructor
  · unfold ConditionSet.new
    split <;> simp_all
  · intro cs h
    unfold ConditionSet.new at h
    split at h <;> simp_all

/-- C6 witness: a valid construction succeeds with the given data, and the
2-of-3 conditions of the demo fail once the threshold exceeds the panel. -/
theorem conditionSet_new_invalid_iff_witness :
    ¬(ConditionSet.new 2 {"V1", "V2", "V3"} "rpt-1" 1000 900 =
        Except.error EscrowError.InvalidConditionSet) ∧
    (ConditionSet.new 4 {"V1", "V2", "V3"} "rpt-1" 1000 900 =
        Except.error EscrowError.InvalidConditionSet) := by
  constructor
  · intro h
    have := (conditionSet_new_invalid_iff 2 {"V1", "V2", "V3"} "rpt-1" 1000 900).1.mp h
    revert this
    decide
  · exact (conditionSet_new_invalid_iff 4 {"V1", "V2", "V3"} "rpt-1" 1000 900).1.mpr
      (by decide)

/-- C4: the full `submit` contract — NotEligible for outsiders, idempotent
no-op on identical resubmission (count unchanged), ConflictingSignature on a
differing resubmission, and otherwise the signature is recorded and the
updated count (one more eligible signature) is returned. -/
theorem submit_contract (cs : ConditionSet) (l : SignatureLedger) (s g : String) :
    (s ∉ cs.eligible_signers →
        l.submit cs s g = Except.error EscrowError.NotEligible) ∧
    (s ∈ cs.eligible_signers → l.signatures.lookup s = some g →
        l.submit cs s g = Except.ok (l, l.count cs)) ∧
    (∀ g', s ∈ cs.eligible_signers → l.signatures.lookup s = some g' → g' ≠ g →
        l.submit cs s g = Except.error EscrowError.ConflictingSignature) ∧
    (s ∈ cs.eligible_signers → l.signatures.lookup s = none →
        ∃ l', l.submit cs s g = Except.ok (l', l'.count cs) ∧
          l'.signatures = (s, g) :: l.signatures ∧
          l'.count cs = l.count cs + 1) := by
  refine ⟨?_, ?_, ?_, ?_⟩
  · intro h
    simp [SignatureLedger.submit, h]
  · intro hs hl
    simp [SignatureLedger.submit, hs, hl]
  · intro g' hs hl hne
    simp [SignatureLedger.submit, hs, hl, hne]
  · intro hs hl
    refine ⟨⟨(s, g) :: l.signatures⟩, ?_, rfl, ?_⟩
    · simp [SignatureLedger.submit, hs, hl]
    · simp [SignatureLedger.count, List.filter_cons, hs, Nat.add_comm]

/-- The ConditionSet of spec Scenario D, shared by the concrete submission
and attestation runs. -/
def csD : ConditionSet := ⟨2, {"V1", "V2", "V3"}, "rpt-1", 1000⟩

/-- C4 witness: spec Scenario D — V1 submits "sigA", the identical
resubmission is a no-op with count 1, "sigB" conflicts, and an outsider is
rejected. -/
theorem submit_contract_witness :
    (SignatureLedger.submit csD ⟨[]⟩ "V1" "sigA" =
        Except.ok (⟨[("V1", "sigA")]⟩, 1)) ∧
    (SignatureLedger.submit csD ⟨[("V1", "sigA")]⟩ "V1" "sigA" =
        Except.ok (⟨[("V1", "sigA")]⟩, 1)) ∧
    (SignatureLedger.submit csD ⟨[("V1", "sigA")]⟩ "V1" "sigB" =
        Except.error EscrowError.ConflictingSignature) ∧
    (SignatureLedger.submit csD ⟨[]⟩ "V9" "sigA" =
        Except.error EscrowError.NotEligible) := by
  refine ⟨?_, ?_, ?_, ?_⟩
  · obtain ⟨l', h1, h2, h3⟩ :=
      (submit_contract csD ⟨[]⟩ "V1" "sigA").2.2.2 (by decide) rfl
    cases l'
    subst h2
    have hc : SignatureLedger.count csD ⟨[("V1", "sigA")]⟩ = 1 := by decide
    rw [h1, hc]
  · exact (submit_contract csD ⟨[("V1", "sigA")]⟩ "V1" "sigA").2.1 (by decide) rfl
  · exact (submit_contract csD ⟨[("V1", "sigA")]⟩ "V1" "sigB").2.2.1 "sigA"
      (by decide) rfl (by decide)
  · exact (submit_contract csD ⟨[]⟩ "V9" "sigA").1 (by decide)

/-- C5 counterexample: an attestation already terminal (Verified) receives an
attest call with a different status but a mismatched predicate_id; the
predicate check of §4.3 fires first, so the call fails with PredicateMismatch,
not AttestationFinalized as the claim states. -/
theorem attest_terminal_mismatch_cex :
    OracleAttestation.attest csD ⟨AttestStatus.Verified⟩ "other"
        AttestStatus.Rejected = Except.error EscrowError.PredicateMismatch ∧
    ¬(OracleAttestation.attest csD ⟨AttestStatus.Verified⟩ "other"
        AttestStatus.Rejected = Except.error EscrowError.AttestationFinalized) := by
  have h : OracleAttestation.attest csD ⟨AttestStatus.Verified⟩ "other"
      AttestStatus.Rejected = Except.error EscrowError.PredicateMismatch := rfl
  refine ⟨h, ?_⟩
  rw [h]
  simp

/-- C5 (amended): the full `attest` contract — PredicateMismatch whenever the
predicate differs; with a matching predicate, a terminal attestation rejects a
different status with AttestationFinalized, accepts the identical status as an
idempotent no-op, and from Unverified exactly one transition to the given
status happens. -/
theorem attest_contract (cs : ConditionSet) (a : OracleAttestation)
    (pid : String) (st : AttestStatus) :
    (pid ≠ cs.oracle_predicate_id →
        a.attest cs pid st = Except.error EscrowError.PredicateMismatch) ∧
    (pid = cs.oracle_predicate_id → a.status ≠ AttestStatus.Unverified →
        a.status ≠ st →
        a.attest cs pid st = Except.error EscrowError.AttestationFinalized) ∧
    (pid = cs.oracle_predicate_id → a.status ≠ AttestStatus.Unverified →
        a.status = st → a.attest cs pid st = Except.ok a) ∧
    (pid = cs.oracle_predicate_id → a.status = AttestStatus.Unverified →
        a.attest cs pid st = Except.ok ⟨st⟩) := by
  refine ⟨?_, ?_, ?_, ?_⟩
  · intro h
    simp [OracleAttestation.attest, h]
  · intro hp hterm hne
    simp [OracleAttestation.attest, hp, hterm, hne]
  · intro hp hterm heq
    simp [OracleAttestation.attest, hp, hterm, heq]
    intro habs
    exact absurd habs (heq ▸ hterm)
  · intro hp hu
    simp [OracleAttestation.attest, hp, hu]

/-- C5 witness: with the matching predicate "rpt-1", a Verified attestation
rejects Rejected with AttestationFinalized, accepts Verified idempotently, and
an Unverified one transitions to Verified; a mismatched predicate fails. -/
theorem attest_contract_witness :
    (OracleAttestation.attest csD ⟨AttestStatus.Verified⟩ "rpt-1"
        AttestStatus.Rejected = Except.error EscrowError.AttestationFinalized) ∧
    (OracleAttestation.attest csD ⟨AttestStatus.Verified⟩ "rpt-1"
        AttestStatus.Verified = Except.ok ⟨AttestStatus.Verified⟩) ∧
    (OracleAttestation.attest csD ⟨AttestStatus.Unverified⟩ "rpt-1"
        AttestStatus.Verified = Except.ok ⟨AttestStatus.Verified⟩) ∧
    (OracleAttestation.attest csD ⟨AttestStatus.Unverified⟩ "bad"
        AttestStatus.Verified = Except.error EscrowError.PredicateMismatch) := by
  refine ⟨?_, ?_, ?_, ?_⟩
  · exact (attest_contract csD ⟨AttestStatus.Verified⟩ "rpt-1"
      AttestStatus.Rejected).2.1 rfl (by decide) (by decide)
  · exact (attest_contract csD ⟨AttestStatus.Verified⟩ "rpt-1"
      AttestStatus.Verified).2.2.1 rfl (by decide) rfl
  · exact (attest_contract csD ⟨AttestStatus.Unverified⟩ "rpt-1"
      AttestStatus.Verified).2.2.2 rfl rfl
  · exact (attest_contract csD ⟨AttestStatus.Unverified⟩ "bad"
      AttestStatus.Verified).1 (by decide)

/-- C2: a terminal (Released/Refunded) machine rejects every mutation with
EscrowFinalized, unchanged, and its evaluation emits nothing; moreover an
evaluation emits a PayoutTemplate exactly when it makes the terminal
transition out of Pending, so exactly one template arises per transition. -/
theorem terminal_state_frozen (m : EscrowStateMachine)
    (h : m.state = EscrowState.Released ∨ m.state = EscrowState.Refunded) :
    (∀ s g, m.submit s g = (m, Except.error EscrowError.EscrowFinalized)) ∧
    (∀ p st, m.attest p st = (m, Except.error EscrowError.EscrowFinalized)) ∧
    (∀ hgt, m.advance_height hgt = (m, Except.error EscrowError.EscrowFinalized)) ∧
    m.evaluate = (m, none) ∧
    (∀ m' : EscrowStateMachine, m'.state = EscrowState.Pending →
      (((m'.evaluate).1.state ≠ EscrowState.Pending) ↔
        ((m'.evaluate).2).isSome = true)) := by
  have hne : m.state ≠ EscrowState.Pending := by
    rcases h with h | h <;> simp [h]
  refine ⟨?_, ?_, ?_, ?_, ?_⟩
  · intro s g
    simp [EscrowStateMachine.submit, hne]
  · intro p st
    simp [EscrowStateMachine.attest, hne]
  · intro hgt
    simp [EscrowStateMachine.advance_height, hne]
  · rcases h with h | h <;> simp [EscrowStateMachine.evaluate, h]
  · intro m' hp
    rcases m' with ⟨cs, l, o, st, ch, d, dest, amt⟩
    subst hp
    unfold EscrowStateMachine.evaluate
    split_ifs <;> simp

/-- Concrete instance for the C2 witness: a machine already Released. -/
def mDone : EscrowStateMachine :=
  ⟨csD, ⟨[("V1", "sA"), ("V2", "sB")]⟩, ⟨AttestStatus.Verified⟩,
   EscrowState.Released, 950, some 950, "tb1qreward", 100000⟩

/-- C2 witness: the Released instance rejects a further signature and a
height update with EscrowFinalized and re-evaluates to itself with no
template. -/
theorem terminal_state_frozen_witness :
    (mDone.state = EscrowState.Released ∨ mDone.state = EscrowState.Refunded) ∧
    mDone.submit "V3" "sC" = (mDone, Except.error EscrowError.EscrowFinalized) ∧
    mDone.advance_height 2000 = (mDone, Except.error EscrowError.EscrowFinalized) ∧
    mDone.evaluate = (mDone, none) :=
  ⟨Or.inl rfl,
   (terminal_state_frozen mDone (Or.inl rfl)).1 "V3" "sC",
   (terminal_state_frozen mDone (Or.inl rfl)).2.2.1 2000,
   (terminal_state_frozen mDone (Or.inl rfl)).2.2.2.1⟩

/-- C9 counterexample: on a terminal machine whose last seen height is 950,
`advance_height 900` is a regressing call, yet it fails with EscrowFinalized
(the §4.4 terminality guard), not HeightRegression as the claim states for
every such call. -/
theorem height_regression_cex :
    900 < mDone.current_height ∧
    (mDone.advance_height 900).2 = Except.error EscrowError.EscrowFinalized ∧
    ¬((mDone.advance_height 900).2 = Except.error EscrowError.HeightRegression) := by
  have h : (mDone.advance_height 900).2 = Except.error EscrowError.EscrowFinalized := rfl
  refine ⟨by decide, h, ?_⟩
  rw [h]
  simp

/-- C9 (amended): on a Pending machine, a regressing `advance_height` fails
with HeightRegression leaving the instance unchanged, and an accepted call
records exactly the given height, so accepted heights never decrease. -/
theorem advance_height_contract (m : EscrowStateMachine) (h : Nat)
    (hp : m.state = EscrowState.Pending) :
    (h < m.current_height →
        m.advance_height h = (m, Except.error EscrowError.HeightRegression)) ∧
    (m.current_height ≤ h →
        (m.advance_height h).1.current_height = h ∧
        m.current_height ≤ (m.advance_height h).1.current_height ∧
        ∃ t, (m.advance_height h).2 = Except.ok t) := by
  constructor
  · intro hlt
    simp [EscrowStateMachine.advance_height, hp, hlt]
  · intro hle
    have hnlt : ¬(h < m.current_height) := not_lt.mpr hle
    have hch : ((EscrowStateMachine.evaluate
        { m with current_height := h }).1).current_height = h :=
      (evaluate_frame { m with current_height := h }).2.2.2
    rw [hp] at hch
    refine ⟨?_, ?_,
        ⟨(EscrowStateMachine.evaluate { m with current_height := h }).2, ?_⟩⟩ <;>
      simp [EscrowStateMachine.advance_height, hp, hnlt, hch, hle]

/-- C9 witness: on the Pending instance at height 1000, advancing to 500
fails with HeightRegression unchanged, while advancing to 1500 is accepted
and records 1500. -/
theorem advance_height_contract_witness :
    mTimeout.state = EscrowState.Pending ∧
    500 < mTimeout.current_height ∧
    mTimeout.advance_height 500 = (mTimeout, Except.error EscrowError.HeightRegression) ∧
    mTimeout.current_height ≤ 1500 ∧
    (mTimeout.advance_height 1500).1.current_height = 1500 :=
  ⟨rfl, by decide,
   (advance_height_contract mTimeout 500 rfl).1 (by decide),
   by decide,
   ((advance_height_contract mTimeout 1500 rfl).2 (by decide)).1⟩

/-- C8: every mutating machine operation that returns an error leaves the
whole instance — ConditionSet, ledger, oracle, state, heights — exactly as it
was: the first component of the result is the original machine. -/
theorem error_atomicity (m : EscrowStateMachine) (s g p : String)
    (st : AttestStatus) (h : Nat) :
    (∀ e, (m.submit s g).2 = Except.error e → (m.submit s g).1 = m) ∧
    (∀ e, (m.attest p st).2 = Except.error e → (m.attest p st).1 = m) ∧
    (∀ e, (m.advance_height h).2 = Except.error e → (m.advance_height h).1 = m) := by
  refine ⟨?_, ?_, ?_⟩
  · intro e he
    unfold EscrowStateMachine.submit at he ⊢
    split_ifs at he ⊢
    · rfl
    · cases hsub : m.ledger.submit m.condition_set s g with
      | error e2 => simp [hsub]
      | ok p2 =>
          obtain ⟨l2, c2⟩ := p2
          rw [hsub] at he
          simp at he
  · intro e he
    unfold EscrowStateMachine.attest at he ⊢
    split_ifs at he ⊢
    · rfl
    · cases hat : m.oracle.attest m.condition_set p st with
      | error e2 => simp [hat]
      | ok a2 =>
          rw [hat] at he
          simp at he
  · intro e he
    unfold EscrowStateMachine.advance_height at he ⊢
    split_ifs at he ⊢ <;> first | rfl | simp at he

/-- C8 witness: a rejected submission (ineligible signer) on the Pending
instance reports NotEligible and leaves the instance untouched. -/
theorem error_atomicity_witness :
    (mTimeout.submit "V9" "x").2 = Except.error EscrowError.NotEligible ∧
    (mTimeout.submit "V9" "x").1 = mTimeout :=
  ⟨rfl,
   (error_atomicity mTimeout "V9" "x" "p" AttestStatus.Verified 0).1
     EscrowError.NotEligible rfl⟩

/-- A successful attest on a Rejected attestation can only be the idempotent
resubmission: the status stays Rejected. -/
lemma attest_ok_rejected (cs : ConditionSet) (a a' : OracleAttestation)
    (pid : String) (st : AttestStatus)
    (hrej : a.status = AttestStatus.Rejected)
    (h : OracleAttestation.attest cs a pid st = Except.ok a') :
    a'.status = AttestStatus.Rejected := by
  unfold OracleAttestation.attest at h
  split_ifs at h <;> simp_all

/-- One event preserves "oracle Rejected and not Released". -/
lemma applyEvent_rejected (m : EscrowStateMachine) (e : Event)
    (hrej : m.oracle.status = AttestStatus.Rejected)
    (hrel : m.state ≠ EscrowState.Released) :
    (m.applyEvent e).oracle.status = AttestStatus.Rejected ∧
    (m.applyEvent e).state ≠ EscrowState.Released := by
  cases e with
  | submit s g =>
      simp only [EscrowStateMachine.applyEvent, EscrowStateMachine.submit]
      split_ifs
      · exact ⟨hrej, hrel⟩
      · cases hsub : m.ledger.submit m.condition_set s g with
        | error e2 =>
            simp only [hsub]
            exact ⟨hrej, hrel⟩
        | ok p2 =>
            obtain ⟨l2, c2⟩ := p2
            simp only [hsub]
            refine ⟨?_, ?_⟩
            · rw [(evaluate_frame { m with ledger := l2 }).2.2.1]
              exact hrej
            · exact evaluate_no_release _
                (by simp [OracleAttestation.is_verified, hrej]) hrel
  | attest p st =>
      simp only [EscrowStateMachine.applyEvent, EscrowStateMachine.attest]
      split_ifs
      · exact ⟨hrej, hrel⟩
      · cases hat : m.oracle.attest m.condition_set p st with
        | error e2 =>
            simp only [hat]
            exact ⟨hrej, hrel⟩
        | ok a2 =>
            have ha2 : a2.status = AttestStatus.Rejected :=
              attest_ok_rejected m.condition_set m.oracle a2 p st hrej hat
            simp only [hat]
            refine ⟨?_, ?_⟩
            · rw [(evaluate_frame { m with oracle := a2 }).2.2.1]
              exact ha2
            · exact evaluate_no_release _
                (by simp [OracleAttestation.is_verified, ha2]) hrel
  | advance h2 =>
      simp only [EscrowStateMachine.applyEvent, EscrowStateMachine.advance_height]
      split_ifs
      · exact ⟨hrej, hrel⟩
      · exact ⟨hrej, hrel⟩
      · refine ⟨?_, ?_⟩
        · rw [(evaluate_frame { m with current_height := h2 }).2.2.1]
          exact hrej
        · exact evaluate_no_release _
            (by simp [OracleAttestation.is_verified, hrej]) hrel

/-- The invariant of `applyEvent_rejected`, extended to any event stream. -/
lemma run_rejected (m : EscrowStateMachine) (evs : List Event)
    (hrej : m.oracle.status = AttestStatus.Rejected)
    (hrel : m.state ≠ EscrowState.Released) :
    (m.run evs).oracle.status = AttestStatus.Rejected ∧
    (m.run evs).state ≠ EscrowState.Released := by
  induction evs generalizing m with
  | nil => exact ⟨hrej, hrel⟩
  | cons e evs ih =>
      have h := applyEvent_rejected m e hrej hrel
      exact ih (m.applyEvent e) h.1 h.2

/-- C7: once the attestation is Rejected on a Pending machine, no event
stream can ever reach Released, is_verified stays false forever, and a height
update at or past the timeout still refunds the machine. -/
theorem oracle_rejected_only_refund (m : EscrowStateMachine) (evs : List Event)
    (hrej : m.oracle.status = AttestStatus.Rejected)
    (hp : m.state = EscrowState.Pending) :
    ((m.run evs).state ≠ EscrowState.Released) ∧
    ((m.run evs).oracle.is_verified = false) ∧
    (∀ h, (m.run evs).state = EscrowState.Pending →
        (m.run evs).current_height ≤ h →
        (m.run evs).condition_set.timeout_height ≤ h →
        ((m.run evs).advance_height h).1.state = EscrowState.Refunded) := by
  have hrel : m.state ≠ EscrowState.Released := by simp [hp]
  obtain ⟨h1, h2⟩ := run_rejected m evs hrej hrel
  refine ⟨h2, by simp [OracleAttestation.is_verified, h1], ?_⟩
  intro h hp' hle ht
  have hnlt : ¬(h < (m.run evs).current_height) := not_lt.mpr hle
  have hb : ((m.run evs).ledger.has_quorum (m.run evs).condition_set &&
      (m.run evs).oracle.is_verified) = false := by
    simp [OracleAttestation.is_verified, h1]
  have href := evaluate_refund_aux { m.run evs with current_height := h } hp' hb ht
  have hadv : ((m.run evs).advance_height h).1 =
      (EscrowStateMachine.evaluate { m.run evs with current_height := h }).1 := by
    unfold EscrowStateMachine.advance_height
    rw [if_neg (by simp [hp']), if_neg hnlt]
  rw [hadv]
  exact href.1

/-- Concrete instance for the C7 witness: spec Scenario C after the oracle
attested Rejected at height 920, with V1's signature recorded. -/
def mRej : EscrowStateMachine :=
  ⟨csD, ⟨[("V1", "sA")]⟩, ⟨AttestStatus.Rejected⟩,
   EscrowState.Pending, 920, none, "tb1qreward", 100000⟩

/-- C7 witness: V2 reaches quorum at 930 but the machine stays off Released,
and the height update to 1000 refunds it. -/
theorem oracle_rejected_only_refund_witness :
    mRej.oracle.status = AttestStatus.Rejected ∧
    mRej.state = EscrowState.Pending ∧
    (mRej.run [Event.submit "V2" "sB", Event.advance 930]).state ≠
      EscrowState.Released ∧
    ((mRej.run [Event.submit "V2" "sB", Event.advance 930]).advance_height
      1000).1.state = EscrowState.Refunded :=
  ⟨rfl, rfl,
   (oracle_rejected_only_refund mRej [Event.submit "V2" "sB", Event.advance 930]
     rfl rfl).1,
   (oracle_rejected_only_refund mRej [Event.submit "V2" "sB", Event.advance 930]
     rfl rfl).2.2 1000 (by decide) (by decide) (by decide)⟩
